import Mathlib

/-!
# Verification of the vet_animal_wellness_backend analytics engine

Shallow embedding of the repository's analytics code
(`app/services/analytics.py` and `app/api/endpoints/dashboard_golden.py`)
together with proofs of the specification claims.

Modelling conventions:
* Python / pandas scalar cell values are the inductive type `RawVal`
  (`None`, `NaN`, a finite number, a string, or a parsed timestamp).
  Numbers are modelled by `ℚ`: all monetary data in the repository are
  finite decimal quantities, and the golden verifier works in exact
  `Decimal` arithmetic, both of which embed exactly into `ℚ`.
* pandas timestamps are `Timestamp`: an absolute minute count since the
  Unix epoch plus the civil calendar fields produced by the parser.
  `.dt.dayofweek` and whole-day subtraction are derived from the absolute
  minute count exactly as pandas derives them from the instant.
* A dataframe is a column-name list plus rows of association lists; a
  missing key in a row reads as `NaN`, as pandas fills absent cells.
-/

namespace VetAnalytics

/-- A pandas timestamp: absolute minutes since the Unix epoch together
with the civil calendar fields the date parser produced.  The model works
at minute resolution. -/
structure Timestamp where
  absMin : ℤ
  year : ℤ
  month : ℤ
  day : ℤ
  hour : ℤ
  minute : ℤ
deriving DecidableEq, Repr

/-- Day number of the instant (days since 1970-01-01, floor). -/
def Timestamp.dayNumber (t : Timestamp) : ℤ := t.absMin.fdiv 1440

/-- pandas `.dt.dayofweek`: Monday = 0 … Sunday = 6.  1970-01-01 was a
Thursday, index 3. -/
def Timestamp.dowIdx (t : Timestamp) : ℤ := (t.dayNumber + 3).emod 7

/-- A raw cell value as delivered to the engine: Python `None`, a float
`NaN` (pandas missing marker), a finite number (int or float), a string,
or an already-parsed timestamp. -/
inductive RawVal where
  | pynone : RawVal
  | pynan : RawVal
  | num (q : ℚ) : RawVal
  | str (s : String) : RawVal
  | ts (t : Timestamp) : RawVal
deriving DecidableEq, Repr

/-- Model of `pd.isna` on a scalar: true exactly for `None` and `NaN`. -/
def pdIsna : RawVal → Bool
  | .pynone => true
  | .pynan => true
  | _ => false

/-- Python `val == ''`: true only for the empty string (`0 == ''` is
`False` in Python). -/
def eqEmptyStr : RawVal → Bool
  | .str s => s == ""
  | _ => false

/-- Left-pad the decimal rendering of a nonnegative integer to two
digits, as `strftime`-style rendering does. -/
def pad2 (n : ℤ) : String :=
  if n < 10 then "0" ++ toString n else toString n

/-- Render a timestamp the way Python prints a pandas `Timestamp`
(`YYYY-MM-DD HH:MM:SS` at our minute resolution). -/
def Timestamp.render (t : Timestamp) : String :=
  toString t.year ++ "-" ++ pad2 t.month ++ "-" ++ pad2 t.day ++ " " ++
    pad2 t.hour ++ ":" ++ pad2 t.minute ++ ":00"

/-- Render a timestamp's calendar date the way Python prints a
`datetime.date` (`YYYY-MM-DD`). -/
def Timestamp.renderDate (t : Timestamp) : String :=
  toString t.year ++ "-" ++ pad2 t.month ++ "-" ++ pad2 t.day

/-- Render a timestamp like `Timestamp.isoformat` (`YYYY-MM-DDTHH:MM:SS`
at our minute resolution). -/
def Timestamp.isoformat (t : Timestamp) : String :=
  toString t.year ++ "-" ++ pad2 t.month ++ "-" ++ pad2 t.day ++ "T" ++
    pad2 t.hour ++ ":" ++ pad2 t.minute ++ ":00"

/-- Python `str()` of a raw value.  `None` prints as `"None"` and a float
`NaN` as `"nan"`.  Finite numbers print as a digits-and-punctuation
numeral; the model renders `ℚ` as `num` or `num/den`, which differs in
shape from Python's float rendering but, like it, contains no alphabetic
keyword, which is all the classifier below inspects. -/
def pyStr : RawVal → String
  | .pynone => "None"
  | .pynan => "nan"
  | .num q => if q.den = 1 then toString q.num else toString q.num ++ "/" ++ toString q.den
  | .str s => s
  | .ts t => t.render

/-- Decimal digit value of a character, if it is a digit. -/
def digitVal (c : Char) : Option ℕ :=
  if c.isDigit then some (c.toNat - 48) else none

/-- Split a leading run of decimal digits off a character list. -/
def spanDigits : List Char → List Char × List Char
  | [] => ([], [])
  | c :: cs =>
    if c.isDigit then
      let (ds, rest) := spanDigits cs
      (c :: ds, rest)
    else ([], c :: cs)

/-- Value of a digit run as a natural number. -/
def digitsVal : List Char → ℕ
  | [] => 0
  | c :: cs => (c.toNat - 48) * 10 ^ cs.length + digitsVal cs

/-- Parse the exponent tail of a Python float literal (empty, or
`e`/`E`, optional sign, digits) and scale the mantissa accordingly. -/
def parseExpTail (m : ℚ) : List Char → Option ℚ
  | [] => some m
  | c :: cs =>
    if c = 'e' ∨ c = 'E' then
      match cs with
      | '+' :: ds => if ds ≠ [] ∧ ds.all Char.isDigit then some (m * 10 ^ digitsVal ds) else none
      | '-' :: ds => if ds ≠ [] ∧ ds.all Char.isDigit then some (m / 10 ^ digitsVal ds) else none
      | ds => if ds ≠ [] ∧ ds.all Char.isDigit then some (m * 10 ^ digitsVal ds) else none
    else none

/-- Parse an unsigned Python float literal: a digit run, optionally with
a decimal point before, inside, or after it (at least one digit in
total), then an optional exponent. -/
def parseUnsignedFloat (cs : List Char) : Option ℚ :=
  let (ip, rest) := spanDigits cs
  match rest with
  | '.' :: rest2 =>
    let (fp, rest3) := spanDigits rest2
    if ip = [] ∧ fp = [] then none
    else parseExpTail ((digitsVal ip : ℚ) + (digitsVal fp : ℚ) / 10 ^ fp.length) rest3
  | _ => if ip = [] then none else parseExpTail (digitsVal ip : ℚ) rest

/-- Strip leading and trailing whitespace (Python `float` ignores it;
`str.strip()` does the same). -/
def trimChars (cs : List Char) : List Char :=
  ((cs.dropWhile Char.isWhitespace).reverse.dropWhile Char.isWhitespace).reverse

/-- Python `float(s)` on the finite decimal literals the engine feeds it:
optional sign, then an unsigned float literal, surrounding whitespace
ignored.  (The special spellings `inf`/`nan` have no finite value and
are outside the `ℚ` model; no cleaned currency string in this codebase
takes those forms.) -/
def pyFloatOfString (s : String) : Option ℚ :=
  match trimChars s.data with
  | '+' :: rest => parseUnsignedFloat rest
  | '-' :: rest => (parseUnsignedFloat rest).map Neg.neg
  | cs => parseUnsignedFloat cs

/-- The string-cleaning pipeline of `clean_currency`
(`analytics.py` lines 24-27): drop `$` and spaces, drop `.` thousands
separators, then turn the `,` decimal separator into `.`.  All four
`str.replace` calls have single-character patterns, so the pipeline is
a character filter followed by a character map. -/
def cleanedString (s : String) : String :=
  String.mk ((s.data.filter fun c => !(c == '$' || c == ' ' || c == '.')).map
    fun c => if c = ',' then '.' else c)

/-- Embedding of `clean_currency` (`analytics.py` lines 18-31): `None`/`NaN` and the
empty string map to `0`; numeric values pass through; any other value is
stringified, cleaned, and parsed as a float, with parse failure mapping
to `0`. -/
def clean_currency (v : RawVal) : ℚ :=
  if pdIsna v || eqEmptyStr v then 0
  else
    match v with
    | .num q => q
    | v =>
      match pyFloatOfString (cleanedString (pyStr v)) with
      | some q => q
      | none => 0

/-! ## Dataframe model -/

/-- A dataframe row: association list from column name to cell value.  A
key absent from a row reads as `NaN`, as pandas fills absent cells. -/
abbrev Row := List (String × RawVal)

/-- Read a cell; a missing key is pandas `NaN`. -/
def getCell (r : Row) (c : String) : RawVal :=
  match r.lookup c with
  | some v => v
  | none => .pynan

/-- Write a cell, replacing the first binding for the key or appending a
new one. -/
def setCell (r : Row) (c : String) (v : RawVal) : Row :=
  match r with
  | [] => [(c, v)]
  | (k, w) :: rest => if k = c then (k, v) :: rest else (k, w) :: setCell rest c v

/-- A pandas dataframe: a list of column names plus the rows. -/
structure DataFrame where
  cols : List String
  rows : List Row
deriving DecidableEq, Repr

/-- Column assignment `df[c] = f(row)`: updates every row and appends
the column name when it is new. -/
def setCol (df : DataFrame) (c : String) (f : Row → RawVal) : DataFrame :=
  { cols := if df.cols.contains c then df.cols else df.cols ++ [c],
    rows := df.rows.map fun r => setCell r c (f r) }

/-! ## Date parsing (`pd.to_datetime` with `errors='coerce'`) -/

/-- Days since 1970-01-01 of a civil date (standard civil-calendar day
count, valid for all years). -/
def daysFromCivil (y m d : ℤ) : ℤ :=
  let y2 := if m ≤ 2 then y - 1 else y
  let era := y2.fdiv 400
  let yoe := y2 - era * 400
  let mp := (m + 9).emod 12
  let doy := (153 * mp + 2).fdiv 5 + d - 1
  let doe := yoe * 365 + yoe.fdiv 4 - yoe.fdiv 100 + doy
  era * 146097 + doe - 719468

/-- Build a timestamp from civil fields; the absolute minute count is
derived from them, as the parser guarantees consistency. -/
def mkTimestamp (y mo d h mi : ℤ) : Timestamp :=
  { absMin := daysFromCivil y mo d * 1440 + h * 60 + mi,
    year := y, month := mo, day := d, hour := h, minute := mi }

/-- Take exactly `n` leading digits off a character list. -/
def splitExact (n : ℕ) (cs : List Char) : Option (List Char × List Char) :=
  if (cs.take n).length = n ∧ (cs.take n).all Char.isDigit then
    some (cs.take n, cs.drop n)
  else none

/-- Accept an optional timezone suffix (`Z` or `±HH:MM`); the offset is
dropped, matching the spec's conversion to timezone-naive instants. -/
def tzTailOk : List Char → Bool
  | [] => true
  | ['Z'] => true
  | c :: rest =>
    if c = '+' ∨ c = '-' then
      match splitExact 2 rest with
      | some (_, ':' :: r2) =>
        match splitExact 2 r2 with
        | some (_, []) => true
        | _ => false
      | _ => false
    else false

/-- Accept an optional `:SS` seconds field followed by an optional
timezone suffix.  Seconds are dropped: the model works at minute
resolution. -/
def secTailOk : List Char → Bool
  | ':' :: rest =>
    (match splitExact 2 rest with
     | some (_, r2) => tzTailOk r2
     | none => false)
  | cs => tzTailOk cs

/-- Permissive ISO date / datetime parser standing for `pd.to_datetime`
on one string: `YYYY-MM-DD`, optionally followed by a `T` or space and
`HH:MM[:SS][tz]`.  Anything else is unparsable (`NaT`). -/
def parseDate (s : String) : Option Timestamp :=
  match splitExact 4 (trimChars s.data) with
  | some (ys, '-' :: r1) =>
    (match splitExact 2 r1 with
     | some (ms, '-' :: r2) =>
       (match splitExact 2 r2 with
        | some (ds, rest) =>
          let y : ℤ := digitsVal ys
          let mo : ℤ := digitsVal ms
          let d : ℤ := digitsVal ds
          if 1 ≤ mo ∧ mo ≤ 12 ∧ 1 ≤ d ∧ d ≤ 31 then
            match rest with
            | [] => some (mkTimestamp y mo d 0 0)
            | sep :: r3 =>
              if sep = ' ' ∨ sep = 'T' then
                match splitExact 2 r3 with
                | some (hs, ':' :: r4) =>
                  (match splitExact 2 r4 with
                   | some (mis, r5) =>
                     let h : ℤ := digitsVal hs
                     let mi : ℤ := digitsVal mis
                     if h ≤ 23 ∧ mi ≤ 59 ∧ secTailOk r5 then
                       some (mkTimestamp y mo d h mi)
                     else none
                   | none => none)
                | _ => none
              else none
          else none
        | none => none)
     | _ => none)
  | _ => none

/-- Model of `pd.to_datetime` with coercing errors on one cell: timestamps pass
through, strings are parsed, everything else (including `None`/`NaN`)
coerces to `NaT`. -/
def to_datetime_val : RawVal → Option Timestamp
  | .ts t => some t
  | .str s => parseDate s
  | _ => none

/-- The parsed timestamp a row's `fecha_emision` cell holds, if any. -/
def getTs (r : Row) : Option Timestamp :=
  match getCell r "fecha_emision" with
  | .ts t => some t
  | _ => none

/-! ## Preprocessing inside `calculate_analytics` (lines 16-52) -/

/-- The four monetary columns cleaned by the preprocessor. -/
def numeric_cols : List String := ["facturado", "pagado", "pendiente", "descuento"]

/-- One iteration of the lines 33-37 loop: a monetary column present is
overwritten with its `clean_currency` image; a missing one is created
filled with `0`. -/
def cleanColStep (d : DataFrame) (c : String) : DataFrame :=
  if d.cols.contains c then setCol d c (fun r => .num (clean_currency (getCell r c)))
  else setCol d c (fun _ => .num 0)

/-- Lines 33-37: clean or default each of the four monetary columns.
This acts on the caller's dataframe object. -/
def cleanNumericStep (df : DataFrame) : DataFrame :=
  numeric_cols.foldl cleanColStep df

/-- English weekday name for a pandas `dayofweek` index (`dt.day_name()`
default locale). -/
def dayNameEN (i : ℤ) : String :=
  if i = 0 then "Monday" else if i = 1 then "Tuesday" else if i = 2 then "Wednesday"
  else if i = 3 then "Thursday" else if i = 4 then "Friday" else if i = 5 then "Saturday"
  else "Sunday"

/-- Lines 40-44: overwrite `fecha_emision` with its parsed value (`NaT`
for unparsable cells) and add the derived columns `year`, `month`,
`day_name`, `hour`.  Derived cells of `NaT` rows are `NaN`.  This also
acts on the caller's dataframe object. -/
def dateStep (df : DataFrame) : DataFrame :=
  let d1 := setCol df "fecha_emision" (fun r =>
    match to_datetime_val (getCell r "fecha_emision") with
    | some t => .ts t
    | none => .pynan)
  let d2 := setCol d1 "year" (fun r =>
    match getTs r with | some t => .num t.year | none => .pynan)
  let d3 := setCol d2 "month" (fun r =>
    match getTs r with | some t => .num t.month | none => .pynan)
  let d4 := setCol d3 "day_name" (fun r =>
    match getTs r with | some t => .str (dayNameEN t.dowIdx) | none => .pynan)
  setCol d4 "hour" (fun r =>
    match getTs r with | some t => .num t.hour | none => .pynan)

/-- The full in-place preprocessing the engine performs on the caller's
dataframe (lines 33-44). -/
def preprocessMut (df : DataFrame) : DataFrame :=
  dateStep (cleanNumericStep df)

/-- Line 47, `df = df.dropna(subset=['fecha_emision'])`: a fresh frame
keeping only rows with a parsed emission timestamp. -/
def dropnaFecha (df : DataFrame) : DataFrame :=
  { cols := df.cols, rows := df.rows.filter fun r => (getTs r).isSome }

/-- Lines 51-52: default the `estado` column to `VIGENTE` when absent. -/
def ensureEstado (df : DataFrame) : DataFrame :=
  if df.cols.contains "estado" then df
  else setCol df "estado" (fun _ => .str "VIGENTE")

/-- The canonical working table of `calculate_analytics`: preprocessed,
invalid dates dropped, `estado` defaulted. -/
def canonicalTable (df : DataFrame) : DataFrame :=
  ensureEstado (dropnaFecha (preprocessMut df))

/-! ## Golden Invariant Verifier (`dashboard_golden.py`) -/

/-- One fetched record as the golden verifier reads it: the fields it
touches, each `Option` holding `none` for a JSON `null`. -/
structure GRow where
  estado : Option String
  facturado : Option ℚ
  pagado : Option ℚ
  pendiente : Option ℚ
deriving DecidableEq, Repr

/-- Python `str.upper()` (ASCII data in this table). -/
def pyUpper (s : String) : String := String.mk (s.data.map Char.toUpper)

/-- Python `str.strip()`. -/
def pyStrip (s : String) : String := String.mk (trimChars s.data)

/-- Embedding of `normalize_decimal` (`dashboard_golden.py` lines 8-11): `null` reads
as `Decimal('0.00')`, any other value as the exact decimal of its string
form — exact rational arithmetic, no binary floating point. -/
def normalize_decimal : Option ℚ → ℚ
  | none => 0
  | some q => q

/-- Lines 43-46: keep the rows whose stripped, uppercased `estado` is
not `ANULADO` (missing `estado` reads as the empty string). -/
def goldenValidRows (rows : List GRow) : List GRow :=
  rows.filter fun r => pyUpper (pyStrip (r.estado.getD "")) != "ANULADO"

/-- Line 61: exact-decimal sum of `facturado` over the valid rows. -/
def total_facturado (rows : List GRow) : ℚ :=
  ((goldenValidRows rows).map fun r => normalize_decimal r.facturado).sum

/-- Line 62: exact-decimal sum of `pagado` over the valid rows. -/
def total_pagado (rows : List GRow) : ℚ :=
  ((goldenValidRows rows).map fun r => normalize_decimal r.pagado).sum

/-- Line 63: exact-decimal sum of `pendiente` over the valid rows. -/
def total_pendiente (rows : List GRow) : ℚ :=
  ((goldenValidRows rows).map fun r => normalize_decimal r.pendiente).sum

/-- Line 64: the global accounting residual, in exact decimals. -/
def golden_invariant (rows : List GRow) : ℚ :=
  total_facturado rows - (total_pagado rows + total_pendiente rows)

/-- Line 69: `Decimal('0.10')`, the accepted reference residual. -/
def expected_invariant : ℚ := 1 / 10

/-- One named check of the verifier's output payload.  `expected` and
`actual` are the `float(...)` conversions applied only when the payload
is built; for the decimal values involved the model keeps them exact. -/
structure CheckResult where
  name : String
  status : String
  expected : ℚ
  actual : ℚ
deriving DecidableEq, Repr

/-- Lines 89-94, `test_5`: the global accounting-invariant check.  The
comparison happens on exact decimals; floats appear only in the payload
fields. -/
def test5 (rows : List GRow) : CheckResult :=
  { name := "Invariante contable global",
    status := if golden_invariant rows = expected_invariant then "PASS" else "FAIL",
    expected := expected_invariant,
    actual := golden_invariant rows }

/-! ## Result objects and the Sanitizer -/

/-- A Python float: a finite value, or one of the non-finite IEEE
values the Sanitizer must remove. -/
inductive PyFloat where
  | finite (q : ℚ)
  | nan
  | inf
  | ninf
deriving DecidableEq, Repr

/-- Model of `np.isnan(f) or np.isinf(f)`. -/
def PyFloat.isBad : PyFloat → Bool
  | .finite _ => false
  | _ => true

mutual

/-- A JSON-serializable Python result value: dict, list, float, int,
string or `None`. -/
inductive Obj where
  | dict (kvs : KVList)
  | list (xs : ObjList)
  | float (f : PyFloat)
  | int (n : ℤ)
  | str (s : String)
  | pynone

/-- A list of result values. -/
inductive ObjList where
  | nil
  | cons (hd : Obj) (tl : ObjList)

/-- The key-value pairs of a result dict, in insertion order. -/
inductive KVList where
  | nil
  | cons (key : String) (val : Obj) (tl : KVList)

end

/-- Build an `ObjList` from a Lean list. -/
def ObjList.ofList : List Obj → ObjList
  | [] => .nil
  | x :: xs => .cons x (ObjList.ofList xs)

/-- Build a `KVList` from a Lean list of pairs. -/
def KVList.ofList : List (String × Obj) → KVList
  | [] => .nil
  | (k, v) :: xs => .cons k v (KVList.ofList xs)

mutual

/-- Embedding of `sanitize` (`analytics.py` lines 337-346): walk the result, rebuild
dicts and lists, replace every NaN or infinite float with `0.0`, and
pass every other scalar through. -/
def sanitize : Obj → Obj
  | .dict kvs => .dict (sanitizeKVs kvs)
  | .list xs => .list (sanitizeObjs xs)
  | .float f => if f.isBad then .float (.finite 0) else .float f
  | .int n => .int n
  | .str s => .str s
  | .pynone => .pynone

/-- The sanitizer mapped over a list. -/
def sanitizeObjs : ObjList → ObjList
  | .nil => .nil
  | .cons x xs => .cons (sanitize x) (sanitizeObjs xs)

/-- The sanitizer mapped over dict entries. -/
def sanitizeKVs : KVList → KVList
  | .nil => .nil
  | .cons k v xs => .cons k (sanitize v) (sanitizeKVs xs)

end

mutual

/-- Does the value contain a NaN or infinite float anywhere? -/
def Obj.hasBadFloat : Obj → Bool
  | .dict kvs => kvs.hasBadFloat
  | .list xs => xs.hasBadFloat
  | .float f => f.isBad
  | .int _ => false
  | .str _ => false
  | .pynone => false

/-- Bad-float presence over a list. -/
def ObjList.hasBadFloat : ObjList → Bool
  | .nil => false
  | .cons x xs => x.hasBadFloat || xs.hasBadFloat

/-- Bad-float presence over dict entries. -/
def KVList.hasBadFloat : KVList → Bool
  | .nil => false
  | .cons _ v xs => v.hasBadFloat || xs.hasBadFloat

end

/-! ## Aggregation helpers -/

/-- Numeric reading of a cell (post-preprocessing monetary and calendar
cells always hold a number). -/
def qCell (r : Row) (c : String) : ℚ :=
  match getCell r c with
  | .num q => q
  | _ => 0

/-- Column sum `df[c].sum()` over a list of rows. -/
def sumQ (rows : List Row) (c : String) : ℚ :=
  (rows.map fun r => qCell r c).sum

/-- Python `int()` of an exact numeric cell (all cells it is applied to
hold exact integers, so any rounding convention coincides). -/
def pyInt (q : ℚ) : ℤ := ⌊q⌋

/-- A groupby key drawn from a numeric column; a missing value gives no
key, matching pandas dropping NaN-keyed rows from a groupby. -/
def numKey (r : Row) (c : String) : Option ℤ :=
  match getCell r c with
  | .num q => some (pyInt q)
  | _ => none

/-- A groupby key drawn from a textual column, keyed by the value's
string rendering (the status/type/client data this table carries is
string-valued, on which the rendering is the identity); a missing value
gives no key. -/
def cellKey (r : Row) (c : String) : Option String :=
  match getCell r c with
  | .pynan => none
  | .pynone => none
  | v => some (pyStr v)

/-- The calendar date of a row's emission timestamp (`dt.date`). -/
def dateKey (r : Row) : Option (ℤ × ℤ × ℤ) :=
  (getTs r).map fun t => (t.year, t.month, t.day)

/-- The weekday index of a row's emission timestamp (`dt.dayofweek`). -/
def dowKey (r : Row) : Option ℤ :=
  (getTs r).map Timestamp.dowIdx

/-- The distinct groupby keys occurring in a row list (pandas drops
missing keys; the sort applied afterwards supplies pandas' key order). -/
def groupKeys {K : Type} [DecidableEq K] (keyFn : Row → Option K) (rows : List Row) : List K :=
  (rows.filterMap keyFn).dedup

/-- The rows of one group. -/
def groupRows {K : Type} [DecidableEq K] (keyFn : Row → Option K) (k : K) (rows : List Row) : List Row :=
  rows.filter fun r => decide (keyFn r = some k)

/-- Insert into a list sorted by `le`. -/
def insertSorted {α : Type} (le : α → α → Bool) (a : α) : List α → List α
  | [] => [a]
  | b :: bs => if le a b then a :: b :: bs else b :: insertSorted le a bs

/-- Insertion sort by `le` (stands for pandas' groupby key sort and
`sort_values`; ties ordered arbitrarily, as pandas leaves them). -/
def sortByB {α : Type} (le : α → α → Bool) : List α → List α
  | [] => []
  | a :: as => insertSorted le a (sortByB le as)

/-- Order on integer keys. -/
def leInt (a b : ℤ) : Bool := decide (a ≤ b)

/-- Order on string keys (lexicographic, as Python compares the ASCII
strings in this table). -/
def leStr (a b : String) : Bool := decide (a < b) || decide (a = b)

/-- Lexicographic order on (year, estado, tipo) keys. -/
def leYES (a b : ℤ × String × String) : Bool :=
  decide (a.1 < b.1) ||
    (decide (a.1 = b.1) &&
      (decide (a.2.1 < b.2.1) ||
        (decide (a.2.1 = b.2.1) && leStr a.2.2 b.2.2)))

/-- Lexicographic order on (year, month, estado, tipo) keys. -/
def leYMES (a b : ℤ × ℤ × String × String) : Bool :=
  decide (a.1 < b.1) || (decide (a.1 = b.1) && leYES (a.2.1, a.2.2) (b.2.1, b.2.2))

/-- Lexicographic order on integer pairs. -/
def leZ2 (a b : ℤ × ℤ) : Bool :=
  decide (a.1 < b.1) || (decide (a.1 = b.1) && decide (a.2 ≤ b.2))

/-- Lexicographic order on integer triples (calendar dates). -/
def leZ3 (a b : ℤ × ℤ × ℤ) : Bool :=
  decide (a.1 < b.1) || (decide (a.1 = b.1) && leZ2 a.2 b.2)

/-- Lexicographic order on (year, month, payment type) keys. -/
def leYMP (a b : ℤ × ℤ × String) : Bool :=
  decide (a.1 < b.1) ||
    (decide (a.1 = b.1) &&
      (decide (a.2.1 < b.2.1) || (decide (a.2.1 = b.2.1) && leStr a.2.2 b.2.2)))

/-- One step of a running maximum over timestamps. -/
def maxStep (acc : Option Timestamp) (t : Timestamp) : Option Timestamp :=
  match acc with
  | none => some t
  | some a => if a.absMin < t.absMin then some t else some a

/-- The latest emission timestamp among a list of rows (`.max()` on the
column; `none` when no row carries a timestamp, pandas' `NaT`). -/
def maxTsOfRows (rows : List Row) : Option Timestamp :=
  (rows.filterMap getTs).foldl maxStep none

/-- Model of `dt.dayofyear` of a timestamp. -/
def dayOfYear (t : Timestamp) : ℤ :=
  daysFromCivil t.year t.month t.day - daysFromCivil t.year 1 1 + 1

/-- Day-of-year of a row's emission timestamp (rows reaching this all
carry one). -/
def doyOf (r : Row) : ℤ :=
  match getTs r with
  | some t => dayOfYear t
  | none => 0

/-! ## Section 1: KPIs per year, status and tipo (lines 49-91) -/

/-- Groupby key of the yearly stats: (year, estado) plus tipo when the
source table has a `tipo` column. -/
def yearlyKey (hasTipo : Bool) (r : Row) : Option (ℤ × String × String) := do
  let y ← numKey r "year"
  let e ← cellKey r "estado"
  if hasTipo then
    let t ← cellKey r "tipo"
    pure (y, e, t)
  else
    pure (y, e, "")

/-- One `kpis_by_year` item (lines 72-91). -/
def yearlyItem (hasTipo : Bool) (rows : List Row) (k : ℤ × String × String) : Obj :=
  let sub := groupRows (yearlyKey hasTipo) k rows
  let txCount : ℤ := sub.length
  let fact := sumQ sub "facturado"
  let desc := sumQ sub "descuento"
  let gross := fact + desc
  Obj.dict (KVList.ofList (
    [("year", Obj.int k.1),
     ("estado", Obj.str k.2.1),
     ("tx_count", Obj.int txCount),
     ("facturado", Obj.float (.finite fact)),
     ("pagado", Obj.float (.finite (sumQ sub "pagado"))),
     ("pendiente", Obj.float (.finite (sumQ sub "pendiente"))),
     ("descuento", Obj.float (.finite desc)),
     ("ticket_prom",
       if txCount > 0 then Obj.float (.finite (fact / (txCount : ℚ))) else Obj.int 0),
     ("desc_rate_percentage",
       if gross > 0 then Obj.float (.finite (desc / gross * 100)) else Obj.int 0)]
    ++ (if hasTipo then [("tipo", Obj.str k.2.2)] else [])))

/-- The `kpis_by_year` section. -/
def kpis_by_year (hasTipo : Bool) (rows : List Row) : Obj :=
  Obj.list (ObjList.ofList
    ((sortByB leYES (groupKeys (yearlyKey hasTipo) rows)).map (yearlyItem hasTipo rows)))

/-! ## Section 2: YTD comparison (lines 93-113) -/

/-- The `ytd_comparison` section: empty dict when 2025 has no valid
data, else the 2025-vs-2024 year-to-date benchmark cut at the latest
2025 day-of-year. -/
def ytd_comparison (validR : List Row) : Obj :=
  match maxTsOfRows (validR.filter fun r => decide (numKey r "year" = some 2025)) with
  | none => Obj.dict KVList.nil
  | some md =>
    let lim := dayOfYear md
    let y25 := validR.filter fun r =>
      decide (numKey r "year" = some 2025) && decide (doyOf r ≤ lim)
    let y24 := validR.filter fun r =>
      decide (numKey r "year" = some 2024) && decide (doyOf r ≤ lim)
    let f25 := sumQ y25 "facturado"
    let f24 := sumQ y24 "facturado"
    let growth : ℚ := if f24 > 0 then (f25 - f24) / f24 * 100 else 0
    Obj.dict (KVList.ofList
      [("limit_date", Obj.str md.isoformat),
       ("facturado_2025", Obj.float (.finite f25)),
       ("facturado_2024", Obj.float (.finite f24)),
       ("growth_rate_percentage", Obj.float (.finite growth)),
       ("tx_2025", Obj.int y25.length),
       ("tx_2024", Obj.int y24.length)])

/-! ## Section 3: granular monthly KPIs (lines 115-140) -/

/-- Groupby key of the monthly stats. -/
def monthlyKey (hasTipo : Bool) (r : Row) : Option (ℤ × ℤ × String × String) := do
  let y ← numKey r "year"
  let m ← numKey r "month"
  let e ← cellKey r "estado"
  if hasTipo then
    let t ← cellKey r "tipo"
    pure (y, m, e, t)
  else
    pure (y, m, e, "")

/-- One `monthly_seasonality` item. -/
def monthlyItem (hasTipo : Bool) (rows : List Row) (k : ℤ × ℤ × String × String) : Obj :=
  let sub := groupRows (monthlyKey hasTipo) k rows
  let txCount : ℤ := sub.length
  let fact := sumQ sub "facturado"
  Obj.dict (KVList.ofList (
    [("year", Obj.int k.1),
     ("month", Obj.int k.2.1),
     ("estado", Obj.str k.2.2.1),
     ("facturado", Obj.float (.finite fact)),
     ("pagado", Obj.float (.finite (sumQ sub "pagado"))),
     ("pendiente", Obj.float (.finite (sumQ sub "pendiente"))),
     ("descuento", Obj.float (.finite (sumQ sub "descuento"))),
     ("tx_count", Obj.int txCount),
     ("ticket_prom",
       if txCount > 0 then Obj.float (.finite (fact / (txCount : ℚ))) else Obj.int 0)]
    ++ (if hasTipo then [("tipo", Obj.str k.2.2.2)] else [])))

/-- The `monthly_seasonality` section. -/
def monthly_seasonality (hasTipo : Bool) (rows : List Row) : Obj :=
  Obj.list (ObjList.ofList
    ((sortByB leYMES (groupKeys (monthlyKey hasTipo) rows)).map (monthlyItem hasTipo rows)))

/-! ## Section 4: day-of-week, heatmap, daily trends (lines 142-193) -/

/-- The `dow_map` of line 144 read through `.get(⬝, "Unknown")`. -/
def dow_map_get (i : ℤ) : String :=
  if i = 0 then "Lunes" else if i = 1 then "Martes" else if i = 2 then "Miércoles"
  else if i = 3 then "Jueves" else if i = 4 then "Viernes" else if i = 5 then "Sábado"
  else if i = 6 then "Domingo" else "Unknown"

/-- Model of `x.dt.date.nunique()`: number of distinct calendar dates among a
group's rows. -/
def distinctDateCount (rows : List Row) : ℤ :=
  ((rows.filterMap getTs).map fun t => (t.year, t.month, t.day)).dedup.length

/-- One `dow_analysis` entry (lines 157-163): the average daily sales
divide the weekday's summed facturado by its count of distinct active
dates, not by its transaction count. -/
def dowEntry (validR : List Row) (w : ℤ) : Obj :=
  Obj.dict (KVList.ofList
    [("day", Obj.str (dow_map_get w)),
     ("facturado", Obj.float (.finite (sumQ (groupRows dowKey w validR) "facturado"))),
     ("tx_count", Obj.int (groupRows dowKey w validR).length),
     ("avg_daily_sales",
       if 0 < distinctDateCount (groupRows dowKey w validR) then
         Obj.float (.finite (sumQ (groupRows dowKey w validR) "facturado"
           / (distinctDateCount (groupRows dowKey w validR) : ℚ)))
       else Obj.int 0)])

/-- The `dow_analysis` section. -/
def dow_analysis (validR : List Row) : Obj :=
  Obj.list (ObjList.ofList
    ((sortByB leInt (groupKeys dowKey validR)).map (dowEntry validR)))

/-- Groupby key of the demand heatmap: (weekday, hour). -/
def heatKey (r : Row) : Option (ℤ × ℤ) := do
  let w ← dowKey r
  let h ← numKey r "hour"
  pure (w, h)

/-- One `demanda_heatmap` entry. -/
def heatEntry (validR : List Row) (k : ℤ × ℤ) : Obj :=
  let sub := groupRows heatKey k validR
  Obj.dict (KVList.ofList
    [("day", Obj.str (dow_map_get k.1)),
     ("hour", Obj.int k.2),
     ("facturado", Obj.float (.finite (sumQ sub "facturado"))),
     ("tx_count", Obj.int sub.length)])

/-- The `demanda_heatmap` section. -/
def demanda_heatmap (validR : List Row) : Obj :=
  Obj.list (ObjList.ofList
    ((sortByB leZ2 (groupKeys heatKey validR)).map (heatEntry validR)))

/-- Render a calendar-date key the way Python prints a `datetime.date`. -/
def renderDateKey (k : ℤ × ℤ × ℤ) : String :=
  toString k.1 ++ "-" ++ pad2 k.2.1 ++ "-" ++ pad2 k.2.2

/-- One `daily_trends` entry. -/
def dailyEntry (validR : List Row) (k : ℤ × ℤ × ℤ) : Obj :=
  let sub := groupRows dateKey k validR
  Obj.dict (KVList.ofList
    [("date", Obj.str (renderDateKey k)),
     ("facturado", Obj.float (.finite (sumQ sub "facturado"))),
     ("tx_count", Obj.int sub.length)])

/-- The `daily_trends` section. -/
def daily_trends (validR : List Row) : Obj :=
  Obj.list (ObjList.ofList
    ((sortByB leZ3 (groupKeys dateKey validR)).map (dailyEntry validR)))

/-! ## Section 5: payment methods (lines 195-237) -/

/-- Python `str.lower()` on the ASCII payment strings. -/
def pyLower (s : String) : String := String.mk (s.data.map Char.toLower)

/-- Contiguous-substring containment on character lists (Python `in`). -/
def listContainsSub (needle : List Char) : List Char → Bool
  | [] => needle.isEmpty
  | c :: rest => needle.isPrefixOf (c :: rest) || listContainsSub needle rest

/-- Python `needle in hay` for strings. -/
def strContains (hay needle : String) : Bool :=
  listContainsSub needle.data hay.data

/-- Embedding of `categorize_payment` (lines 197-203): stringify, lowercase, then
first-match-wins substring rules, defaulting to `Otros`. -/
def categorize_payment (pago : RawVal) : String :=
  let p := pyLower (pyStr pago)
  if strContains p "tarjeta" || strContains p "transbank" || strContains p "tbk" then "Tarjeta/POS"
  else if strContains p "transferencia" then "Transferencia"
  else if strContains p "efectivo" then "Efectivo"
  else if strContains p "sin boleta" then "Sin Boleta"
  else "Otros"

/-- The spec's reading of the classifier as an ordered rule table:
first-match-wins `(keywords, label)` pairs with `Otros` as the fallthrough
(spec section 4.2 and design note in section 9). -/
def payment_rules : List (List String × String) :=
  [(["tarjeta", "transbank", "tbk"], "Tarjeta/POS"),
   (["transferencia"], "Transferencia"),
   (["efectivo"], "Efectivo"),
   (["sin boleta"], "Sin Boleta")]

/-- Evaluate an ordered rule table on a lowercased text, first match
winning. -/
def firstMatchClassify (p : String) : List (List String × String) → String
  | [] => "Otros"
  | (keys, label) :: rest =>
    if keys.any (fun k => strContains p k) then label else firstMatchClassify p rest

/-- Lines 205-208: add the `payment_type` column to the non-cancelled
view — classified per row when `forma_pago_raw` exists, the constant
`Otros` otherwise. -/
def assignPaymentType (df : DataFrame) : DataFrame :=
  if df.cols.contains "forma_pago_raw" then
    setCol df "payment_type" (fun r => .str (categorize_payment (getCell r "forma_pago_raw")))
  else
    setCol df "payment_type" (fun _ => .str "Otros")

/-- Groupby key of the payment mix: (year, month, payment type). -/
def payKey (r : Row) : Option (ℤ × ℤ × String) := do
  let y ← numKey r "year"
  let m ← numKey r "month"
  let p ← cellKey r "payment_type"
  pure (y, m, p)

/-- One `payment_mix_data` entry (lines 217-225). -/
def payEntry (rowsP : List Row) (k : ℤ × ℤ × String) : Obj :=
  let sub := groupRows payKey k rowsP
  Obj.dict (KVList.ofList
    [("year", Obj.int k.1),
     ("month", Obj.int k.2.1),
     ("type", Obj.str k.2.2),
     ("amount", Obj.float (.finite (sumQ sub "facturado"))),
     ("count", Obj.int sub.length)])

/-- The `payment_mix_data` section. -/
def payment_mix_data (rowsP : List Row) : Obj :=
  Obj.list (ObjList.ofList
    ((sortByB leYMP (groupKeys payKey rowsP)).map (payEntry rowsP)))

/-- One legacy `payment_mix` dict: per payment type the percentage of
that year's facturado, plus the year (lines 230-237). -/
def payMixYearDict (rowsP : List Row) (y : ℤ) : Obj :=
  let dfy := rowsP.filter fun r => decide (numKey r "year" = some y)
  let total := sumQ dfy "facturado"
  let types := sortByB leStr (groupKeys (fun r => cellKey r "payment_type") dfy)
  Obj.dict (KVList.ofList
    ((types.map fun p =>
        (p, Obj.float (.finite (sumQ (groupRows (fun r => cellKey r "payment_type") p dfy) "facturado" / total * 100))))
      ++ [("year", Obj.int y)]))

/-- The legacy `payment_mix` section: one dict per year with nonzero
facturado (zero-total years are skipped by the `continue`). -/
def payment_mix_legacy (rowsP : List Row) : Obj :=
  Obj.list (ObjList.ofList
    ((sortByB leInt (groupKeys (fun r => numKey r "year") rowsP)).filterMap fun y =>
      if sumQ (rowsP.filter fun r => decide (numKey r "year" = some y)) "facturado" = 0 then none
      else some (payMixYearDict rowsP y)))

/-! ## Section 6: top debtors 2025 (lines 239-246) -/

/-- The `top_debtors_2025` section: among 2025 rows with outstanding
balance, the five clients with the largest summed `pendiente`. -/
def top_debtors (cols : List String) (rows2025 : List Row) : Obj :=
  if rows2025 ≠ [] ∧ cols.contains "cliente" then
    let pend := rows2025.filter fun r => decide (qCell r "pendiente" > 0)
    if pend ≠ [] then
      let clients := sortByB leStr (groupKeys (fun r => cellKey r "cliente") pend)
      let stats := clients.map fun c =>
        (c, sumQ (groupRows (fun r => cellKey r "cliente") c pend) "pendiente")
      let sorted := sortByB (fun a b => decide (b.2 ≤ a.2)) stats
      Obj.list (ObjList.ofList ((sorted.take 5).map fun s =>
        Obj.dict (KVList.ofList
          [("cliente", Obj.str s.1), ("pendiente", Obj.float (.finite s.2))])))
    else Obj.list .nil
  else Obj.list .nil

/-! ## Section 7: customer retention and concentration (lines 248-283) -/

/-- The zero-filled `customer_insights` default (lines 249-254): plain
integer zeros and an empty list. -/
def customerInsightsDefault : Obj :=
  Obj.dict (KVList.ofList
    [("total_clients_2025", Obj.int 0),
     ("retention_rate_percentage", Obj.int 0),
     ("pareto_top_20_share_percentage", Obj.int 0),
     ("top_20_clients", Obj.list .nil)])

/-- The `customer_insights` section. -/
def customer_insights (cols : List String) (rows2025 : List Row) : Obj :=
  if rows2025 ≠ [] ∧ cols.contains "cliente" then
    let clients := sortByB leStr (groupKeys (fun r => cellKey r "cliente") rows2025)
    let stats := clients.map fun c =>
      let sub := groupRows (fun r => cellKey r "cliente") c rows2025
      (c, sumQ sub "facturado", (sub.length : ℤ))
    let total : ℤ := stats.length
    if total > 0 then
      let returning : ℤ := (stats.filter fun s => decide (s.2.2 > 1)).length
      let retention : ℚ := ((returning : ℚ) / (total : ℚ)) * 100
      let sorted := sortByB (fun a b => decide (b.2.1 ≤ a.2.1)) stats
      let top20 := sorted.take 20
      let top20rev := (top20.map fun s => s.2.1).sum
      let totalRev := sumQ rows2025 "facturado"
      let pareto : ℚ := if totalRev > 0 then top20rev / totalRev * 100 else 0
      Obj.dict (KVList.ofList
        [("total_clients_2025", Obj.int total),
         ("retention_rate_percentage", Obj.float (.finite retention)),
         ("pareto_top_20_share_percentage", Obj.float (.finite pareto)),
         ("top_20_clients", Obj.list (ObjList.ofList (top20.map fun s =>
           Obj.dict (KVList.ofList
             [("cliente", Obj.str s.1),
              ("facturado", Obj.float (.finite s.2.1)),
              ("tx_count", Obj.int s.2.2)]))))])
    else customerInsightsDefault
  else customerInsightsDefault

/-! ## Section 8: aging analysis (lines 285-299) -/

/-- Whole days between the reference date and a row's emission
timestamp (`(ref_date - fecha).dt.days`, floor semantics). -/
def daysSince (ref : Timestamp) (r : Row) : ℤ :=
  match getTs r with
  | some t => (ref.absMin - t.absMin).fdiv 1440
  | none => 0

/-- The `aging_bins` dict of lines 293-298: the four bucketed
`pendiente` sums in insertion order. -/
def aging_bins (ref : Timestamp) (pend : List Row) : List (String × ℚ) :=
  [("0-7 días", sumQ (pend.filter fun r => decide (daysSince ref r ≤ 7)) "pendiente"),
   ("8-30 días", sumQ (pend.filter fun r =>
      decide (7 < daysSince ref r) && decide (daysSince ref r ≤ 30)) "pendiente"),
   ("31-60 días", sumQ (pend.filter fun r =>
      decide (30 < daysSince ref r) && decide (daysSince ref r ≤ 60)) "pendiente"),
   ("60+ días", sumQ (pend.filter fun r => decide (60 < daysSince ref r)) "pendiente")]

/-- The `aging_analysis_2025` section: empty list when there are no 2025
rows or none with outstanding balance; else the four buckets, with the
reference date the latest emission timestamp of the whole (unfiltered)
canonical table. -/
def aging_analysis (canonRows : List Row) (rows2025 : List Row) : Obj :=
  if rows2025 ≠ [] then
    let pend := rows2025.filter fun r => decide (qCell r "pendiente" > 0)
    if pend ≠ [] then
      match maxTsOfRows canonRows with
      | some ref =>
        Obj.list (ObjList.ofList ((aging_bins ref pend).map fun kv =>
          Obj.dict (KVList.ofList
            [("range", Obj.str kv.1), ("amount", Obj.float (.finite kv.2))])))
      | none => Obj.list .nil
    else Obj.list .nil
  else Obj.list .nil

/-! ## Section 9: data quality (lines 301-319) -/

/-- The `data_quality` section over the canonical table. -/
def data_quality (cols : List String) (rows : List Row) : Obj :=
  let total : ℤ := rows.length
  let missingPay : ℤ :=
    if cols.contains "forma_pago_raw" then
      (rows.filter fun r =>
        pdIsna (getCell r "forma_pago_raw") || decide (getCell r "forma_pago_raw" = .str "")).length
    else 0
  let missingClient : ℤ :=
    if cols.contains "cliente" then
      (rows.filter fun r =>
        pdIsna (getCell r "cliente") || decide (getCell r "cliente" = .str "")).length
    else 0
  let anuladas : ℤ := (rows.filter fun r => decide (getCell r "estado" = .str "ANULADO")).length
  let withDisc : ℤ := (rows.filter fun r => decide (qCell r "descuento" > 0)).length
  Obj.dict (KVList.ofList
    [("total_records", Obj.int total),
     ("missing_payment_percentage",
       if total > 0 then Obj.float (.finite ((missingPay : ℚ) / (total : ℚ) * 100)) else Obj.int 0),
     ("missing_client_percentage",
       if total > 0 then Obj.float (.finite ((missingClient : ℚ) / (total : ℚ) * 100)) else Obj.int 0),
     ("anuladas_percentage",
       if total > 0 then Obj.float (.finite ((anuladas : ℚ) / (total : ℚ) * 100)) else Obj.int 0),
     ("with_discounts_percentage",
       if total > 0 then Obj.float (.finite ((withDisc : ℚ) / (total : ℚ) * 100)) else Obj.int 0)])

/-! ## Pipeline assembly (`calculate_analytics`) -/

/-- The non-cancelled view `df_valid` (line 94): canonical rows whose
`estado` cell differs from the exact string `ANULADO`. -/
def dfValid (df : DataFrame) : DataFrame :=
  { cols := (canonicalTable df).cols,
    rows := (canonicalTable df).rows.filter fun r =>
      !decide (getCell r "estado" = .str "ANULADO") }

/-- The view `df_valid` with its `payment_type` column assigned (lines 205-208). -/
def dfValidP (df : DataFrame) : DataFrame :=
  assignPaymentType (dfValid df)

/-- The 2025 slice `df_2025` (line 240). -/
def rows2025 (df : DataFrame) : List Row :=
  (dfValidP df).rows.filter fun r => decide (numKey r "year" = some 2025)

/-- The `result` dict of lines 321-334, before sanitization. -/
def buildResult (df : DataFrame) : Obj :=
  let canon := canonicalTable df
  let ht := canon.cols.contains "tipo"
  Obj.dict (KVList.ofList
    [("kpis_by_year", kpis_by_year ht canon.rows),
     ("ytd_comparison", ytd_comparison (dfValid df).rows),
     ("monthly_seasonality", monthly_seasonality ht canon.rows),
     ("dow_analysis", dow_analysis (dfValid df).rows),
     ("daily_trends", daily_trends (dfValid df).rows),
     ("demanda_heatmap", demanda_heatmap (dfValid df).rows),
     ("payment_mix", payment_mix_legacy (dfValidP df).rows),
     ("payment_mix_data", payment_mix_data (dfValidP df).rows),
     ("top_debtors_2025", top_debtors (dfValidP df).cols (rows2025 df)),
     ("customer_insights", customer_insights (dfValidP df).cols (rows2025 df)),
     ("aging_analysis_2025", aging_analysis canon.rows (rows2025 df)),
     ("data_quality", data_quality canon.cols canon.rows)])

/-- Embedding of `calculate_analytics`, with the final state of the caller's
dataframe made explicit: the empty-input guard returns `{}` untouched;
otherwise the preprocessing of lines 33-44 mutates the caller's object
in place, the later steps work on fresh frames, and the sanitized result
dict is returned. -/
def calculate_analytics_full (df : DataFrame) : DataFrame × Obj :=
  if df.rows.isEmpty then (df, Obj.dict KVList.nil)
  else (preprocessMut df, sanitize (buildResult df))

/-- The value `calculate_analytics` returns to its caller. -/
def calculate_analytics (df : DataFrame) : Obj :=
  (calculate_analytics_full df).2

/-- The caller's dataframe object after `calculate_analytics` ran. -/
def callerTableAfter (df : DataFrame) : DataFrame :=
  (calculate_analytics_full df).1

/-! ## Basic lemmas about cells and columns -/

theorem lookup_setCell_same (r : Row) (c : String) (v : RawVal) :
    (setCell r c v).lookup c = some v := by
  induction r with
  | nil => simp [setCell, List.lookup]
  | cons kv rest ih =>
    obtain ⟨k, w⟩ := kv
    by_cases h : k = c
    · subst h
      simp [setCell, List.lookup]
    · have hb : (c == k) = false := by simp [Ne.symm h]
      simp [setCell, h, List.lookup, hb, ih]

theorem lookup_setCell_ne (r : Row) (c c' : String) (v : RawVal) (h : c' ≠ c) :
    (setCell r c v).lookup c' = r.lookup c' := by
  have hb : (c' == c) = false := by simp [h]
  induction r with
  | nil => simp [setCell, List.lookup, hb]
  | cons kv rest ih =>
    obtain ⟨k, w⟩ := kv
    by_cases hk : k = c
    · subst hk
      simp [setCell, List.lookup, hb]
    · by_cases hk' : c' = k
      · subst hk'
        simp [setCell, hk, List.lookup]
      · have hb2 : (c' == k) = false := by simp [hk']
        simp [setCell, hk, List.lookup, hb2, ih]

theorem getCell_setCell_same (r : Row) (c : String) (v : RawVal) :
    getCell (setCell r c v) c = v := by
  simp [getCell, lookup_setCell_same]

theorem getCell_setCell_ne (r : Row) (c c' : String) (v : RawVal) (h : c' ≠ c) :
    getCell (setCell r c v) c' = getCell r c' := by
  simp [getCell, lookup_setCell_ne _ _ _ _ h]

theorem setCol_rows (df : DataFrame) (c : String) (f : Row → RawVal) :
    (setCol df c f).rows = df.rows.map fun r => setCell r c (f r) := rfl

theorem setCol_rows_length (df : DataFrame) (c : String) (f : Row → RawVal) :
    (setCol df c f).rows.length = df.rows.length := by
  simp [setCol]

theorem setCol_cols_mem (df : DataFrame) (c : String) (f : Row → RawVal) (x : String) :
    x ∈ (setCol df c f).cols ↔ x ∈ df.cols ∨ x = c := by
  by_cases h : df.cols.contains c
  · have hc : c ∈ df.cols := by simpa using h
    simp only [setCol, if_pos h]
    exact ⟨Or.inl, fun hx => hx.elim id (fun e => e ▸ hc)⟩
  · have hc : c ∉ df.cols := by simpa using h
    simp [setCol, h, hc]

theorem setCol_rows_ne (df : DataFrame) (c : String) (f : Row → RawVal) (c' : String)
    (h : c' ≠ c) (i : ℕ) :
    ((setCol df c f).rows[i]?).map (fun r => getCell r c')
      = (df.rows[i]?).map fun r => getCell r c' := by
  rw [setCol_rows, List.getElem?_map]
  cases df.rows[i]? with
  | none => rfl
  | some r => simp [getCell_setCell_ne _ _ _ _ h]

theorem cleanColStep_cols_mem (d : DataFrame) (c x : String) :
    x ∈ (cleanColStep d c).cols ↔ x ∈ d.cols ∨ x = c := by
  unfold cleanColStep
  split <;> exact setCol_cols_mem ..

theorem cleanColStep_rows_length (d : DataFrame) (c : String) :
    (cleanColStep d c).rows.length = d.rows.length := by
  unfold cleanColStep
  split <;> exact setCol_rows_length ..

theorem cleanColStep_rows_ne (d : DataFrame) (c c' : String) (h : c' ≠ c) (i : ℕ) :
    ((cleanColStep d c).rows[i]?).map (fun r => getCell r c')
      = (d.rows[i]?).map fun r => getCell r c' := by
  unfold cleanColStep
  split <;> exact setCol_rows_ne _ _ _ _ h i

theorem cleanNumericStep_eq (df : DataFrame) :
    cleanNumericStep df =
      cleanColStep (cleanColStep (cleanColStep (cleanColStep df "facturado") "pagado")
        "pendiente") "descuento" := rfl

/-- The columns the preprocessing of lines 33-44 writes (monetary, the
emission date, and the derived calendar columns). -/
def touchedCols : List String :=
  ["facturado", "pagado", "pendiente", "descuento", "fecha_emision",
   "year", "month", "day_name", "hour"]

theorem preprocessMut_rows_length (df : DataFrame) :
    (preprocessMut df).rows.length = df.rows.length := by
  simp [preprocessMut, dateStep, setCol_rows_length, cleanNumericStep_eq,
    cleanColStep_rows_length]

theorem preprocessMut_cols_mem (df : DataFrame) (x : String) :
    x ∈ (preprocessMut df).cols ↔ x ∈ df.cols ∨ x ∈ touchedCols := by
  simp only [preprocessMut, dateStep, cleanNumericStep_eq, setCol_cols_mem,
    cleanColStep_cols_mem, touchedCols]
  simp only [List.mem_cons, List.not_mem_nil, or_false]
  tauto

theorem preprocessMut_frame (df : DataFrame) (c' : String) (h : c' ∉ touchedCols) (i : ℕ) :
    ((preprocessMut df).rows[i]?).map (fun r => getCell r c')
      = (df.rows[i]?).map fun r => getCell r c' := by
  simp only [touchedCols, List.mem_cons, List.not_mem_nil, or_false, not_or] at h
  obtain ⟨h1, h2, h3, h4, h5, h6, h7, h8, h9⟩ := h
  simp only [preprocessMut, dateStep, cleanNumericStep_eq]
  rw [setCol_rows_ne _ _ _ _ h9, setCol_rows_ne _ _ _ _ h8, setCol_rows_ne _ _ _ _ h7,
    setCol_rows_ne _ _ _ _ h6, setCol_rows_ne _ _ _ _ h5, cleanColStep_rows_ne _ _ _ h4,
    cleanColStep_rows_ne _ _ _ h3, cleanColStep_rows_ne _ _ _ h2,
    cleanColStep_rows_ne _ _ _ h1]

/-! ## Further structural lemmas -/

theorem ensureEstado_cols_mem (d : DataFrame) (x : String) :
    x ∈ (ensureEstado d).cols ↔ x ∈ d.cols ∨ x = "estado" := by
  unfold ensureEstado
  split
  · next h =>
    have hc : "estado" ∈ d.cols := by simpa using h
    exact ⟨Or.inl, fun hx => hx.elim id (fun e => e ▸ hc)⟩
  · exact setCol_cols_mem ..

theorem dropnaFecha_cols (d : DataFrame) : (dropnaFecha d).cols = d.cols := rfl

theorem canonicalTable_cols_mem (df : DataFrame) (x : String) :
    x ∈ (canonicalTable df).cols ↔ x ∈ df.cols ∨ x ∈ touchedCols ∨ x = "estado" := by
  unfold canonicalTable
  rw [ensureEstado_cols_mem, dropnaFecha_cols, preprocessMut_cols_mem]
  tauto

/-- Lookup one entry of a dict result (`None` when the key is absent). -/
def kvLookup : KVList → String → Option Obj
  | .nil, _ => none
  | .cons k v rest, key => if k = key then some v else kvLookup rest key

/-- Read a named section out of a result object. -/
def dictLookup (o : Obj) (key : String) : Option Obj :=
  match o with
  | .dict kvs => kvLookup kvs key
  | _ => none

/-! ## Claim C2 -/

/-- C2: `clean_currency` is total (a Lean function never raises); it
returns `0` for null (`None`/`NaN`) and for the empty string; it passes
already-numeric inputs through unchanged; and any other string is
cleaned — currency symbol and spaces stripped, `.` thousands separators
removed, the `,` decimal separator turned into `.` — and parsed, a parse
failure yielding `0`. -/
theorem clean_currency_total_spec :
    (clean_currency .pynone = 0 ∧ clean_currency .pynan = 0 ∧
      clean_currency (.str "") = 0)
    ∧ (∀ q : ℚ, clean_currency (.num q) = q)
    ∧ (∀ s : String, s ≠ "" →
        clean_currency (.str s) =
          match pyFloatOfString (cleanedString s) with
          | some q => q
          | none => 0) := by
  refine ⟨⟨by decide, by decide, by decide⟩, fun q => rfl, fun s hs => ?_⟩
  simp [clean_currency, pdIsna, eqEmptyStr, pyStr, hs]

/-- C2 witness: the theorem applied to the concrete localized string
`$1.234,56`. -/
theorem clean_currency_total_spec_witness :
    clean_currency (.str "$1.234,56") =
      match pyFloatOfString (cleanedString "$1.234,56") with
      | some q => q
      | none => 0 :=
  clean_currency_total_spec.2.2 "$1.234,56" (by decide)

/-! ## Claim C1 -/

/-- C1: the Golden Invariant Verifier accumulates the facturado, pagado
and pendiente totals over the non-cancelled rows in exact decimal
arithmetic (`Decimal(str(val))`, null read as `0.00`), and its global
accounting-invariant check `test_5` reports PASS exactly when the exact
residual `total_facturado - (total_pagado + total_pendiente)` equals the
decimal `0.10`; the comparison happens on the exact decimals, the
payload carrying those values with `float` applied only there. -/
theorem golden_invariant_pass_iff (rows : List GRow) :
    ((test5 rows).status = "PASS" ↔
      total_facturado rows - (total_pagado rows + total_pendiente rows) = 1 / 10)
    ∧ (test5 rows).actual = total_facturado rows - (total_pagado rows + total_pendiente rows)
    ∧ (test5 rows).expected = 1 / 10 := by
  refine ⟨?_, rfl, rfl⟩
  unfold test5 golden_invariant expected_invariant
  by_cases h : total_facturado rows - (total_pagado rows + total_pendiente rows) = 1 / 10
  · simp [h]
  · simp [h]

/-! ## Claim C5 -/

/-- C5 counterexample: on an empty input table the engine returns the
bare empty dict `{}`; the `kpis_by_year` section — like every other
module's section — is absent, not present in an empty shape. -/
theorem calculate_analytics_empty_no_sections :
    calculate_analytics { cols := ["fecha_emision"], rows := [] } = Obj.dict KVList.nil
    ∧ dictLookup (calculate_analytics { cols := ["fecha_emision"], rows := [] })
        "kpis_by_year" = Option.none :=
  ⟨rfl, rfl⟩

/-- C5 (amended): invoked on an empty input table the engine returns
without raising, but the result is the bare empty mapping with no
per-module sections, not zero-count/empty-list section shapes. -/
theorem calculate_analytics_empty_shape (df : DataFrame) (h : df.rows = []) :
    calculate_analytics df = Obj.dict KVList.nil := by
  simp [calculate_analytics, calculate_analytics_full, h]

/-- C5 witness: the amended theorem applied to a concrete empty table. -/
theorem calculate_analytics_empty_shape_witness :
    calculate_analytics { cols := ["fecha_emision", "facturado"], rows := [] }
      = Obj.dict KVList.nil :=
  calculate_analytics_empty_shape _ rfl

/-! ## Claim C4 -/

/-- A concrete two-column table exhibiting the in-place mutation. -/
def dfC4 : DataFrame :=
  { cols := ["fecha_emision", "facturado"],
    rows := [[("fecha_emision", .str "2025-01-02"), ("facturado", .str "$100")]] }

/-- C4 counterexample: `calculate_analytics` does not leave the caller's
table unchanged — on `dfC4` it adds the `year` column (among others) and
overwrites the `facturado` cell `"$100"` with the number `100`. -/
theorem calculate_analytics_mutates_caller :
    callerTableAfter dfC4 ≠ dfC4
    ∧ "year" ∈ (callerTableAfter dfC4).cols
    ∧ "year" ∉ dfC4.cols
    ∧ ((callerTableAfter dfC4).rows[0]?).map (fun r => getCell r "facturado")
        = some (.num 100)
    ∧ (dfC4.rows[0]?).map (fun r => getCell r "facturado") = some (.str "$100") := by
  refine ⟨?_, ?_, ?_, ?_, ?_⟩ <;> decide

/-- C4 (amended): `calculate_analytics` does mutate the caller's table:
the preprocessing of lines 33-44 overwrites the four monetary columns
and `fecha_emision` and adds the derived calendar columns in place.
That is the whole mutation: on a nonempty table no row is added or
removed, a column name is present afterwards exactly when it was present
before or is one of the nine touched ones, and every cell outside the
touched columns is unchanged — the dropna and all later stages work on
fresh frames. -/
theorem calculate_analytics_mutation_frame (df : DataFrame) (h : df.rows ≠ []) :
    (callerTableAfter df).rows.length = df.rows.length
    ∧ (∀ x : String, x ∈ (callerTableAfter df).cols ↔ x ∈ df.cols ∨ x ∈ touchedCols)
    ∧ (∀ c' : String, c' ∉ touchedCols → ∀ i : ℕ,
        ((callerTableAfter df).rows[i]?).map (fun r => getCell r c')
          = (df.rows[i]?).map fun r => getCell r c') := by
  have hne : df.rows.isEmpty = false := by
    cases hr : df.rows with
    | nil => exact absurd hr h
    | cons a l => rfl
  have hful : callerTableAfter df = preprocessMut df := by
    simp [callerTableAfter, calculate_analytics_full, hne]
  rw [hful]
  exact ⟨preprocessMut_rows_length df, preprocessMut_cols_mem df,
    fun c' hc i => preprocessMut_frame df c' hc i⟩

/-- C4 witness: the amended frame theorem applied to `dfC4` and the
untouched column `cliente`. -/
theorem calculate_analytics_mutation_frame_witness :
    ((callerTableAfter dfC4).rows[0]?).map (fun r => getCell r "cliente")
      = (dfC4.rows[0]?).map fun r => getCell r "cliente" :=
  (calculate_analytics_mutation_frame dfC4 (by decide)).2.2 "cliente" (by decide) 0

/-! ## Claim C10 -/

/-- C10: the payment classifier stringifies its argument before the
case-insensitive matching (classifying a value and classifying its
`str()` rendering agree), and the null-like renderings `"nan"` and
`"None"` contain no keyword, so per-row missing `forma_pago_raw` values
classify as `Otros`. -/
theorem categorize_payment_null_is_otros :
    (∀ v : RawVal, categorize_payment v = categorize_payment (.str (pyStr v)))
    ∧ categorize_payment .pynan = "Otros"
    ∧ categorize_payment .pynone = "Otros"
    ∧ (strContains (pyLower (pyStr .pynan)) "tarjeta" = false
       ∧ strContains (pyLower (pyStr .pynan)) "transbank" = false
       ∧ strContains (pyLower (pyStr .pynan)) "tbk" = false
       ∧ strContains (pyLower (pyStr .pynan)) "transferencia" = false
       ∧ strContains (pyLower (pyStr .pynan)) "efectivo" = false
       ∧ strContains (pyLower (pyStr .pynan)) "sin boleta" = false)
    ∧ (strContains (pyLower (pyStr .pynone)) "tarjeta" = false
       ∧ strContains (pyLower (pyStr .pynone)) "transbank" = false
       ∧ strContains (pyLower (pyStr .pynone)) "tbk" = false
       ∧ strContains (pyLower (pyStr .pynone)) "transferencia" = false
       ∧ strContains (pyLower (pyStr .pynone)) "efectivo" = false
       ∧ strContains (pyLower (pyStr .pynone)) "sin boleta" = false) := by
  refine ⟨fun v => by cases v <;> rfl, ?_, ?_, ?_, ?_⟩ <;> decide

/-! ## Claim C7 -/

theorem dfValid_cols (df : DataFrame) : (dfValid df).cols = (canonicalTable df).cols := by
  unfold dfValid
  rfl

/-- A one-column table without `forma_pago_raw`, exercising the
missing-column default of the payment classifier. -/
def dfC7 : DataFrame :=
  { cols := ["fecha_emision"], rows := [[("fecha_emision", .str "2025-03-04")]] }

/-- The first row of the classified non-cancelled view of `dfC7`. -/
def rowC7 : Row := ((dfValidP dfC7).rows).headD []

/-- C7: payment classification is first-match-wins over the ordered,
case-insensitive rule table — `tarjeta`/`transbank`/`tbk` give
`Tarjeta/POS`, else `transferencia` gives `Transferencia`, else
`efectivo` gives `Efectivo`, else `sin boleta` gives `Sin Boleta`, else
`Otros` — and when the source table lacks the `forma_pago_raw` column
every record's `payment_type` is `Otros`. -/
theorem categorize_payment_rules_spec :
    (∀ v : RawVal,
      categorize_payment v = firstMatchClassify (pyLower (pyStr v)) payment_rules)
    ∧ (∀ df : DataFrame, df.cols.contains "forma_pago_raw" = false →
        ∀ r ∈ (dfValidP df).rows, getCell r "payment_type" = .str "Otros") := by
  constructor
  · intro v
    simp only [categorize_payment, firstMatchClassify, payment_rules, List.any_cons,
      List.any_nil, Bool.or_false, Bool.or_assoc]
  · intro df h r hr
    have hmem : "forma_pago_raw" ∉ (canonicalTable df).cols := by
      rw [canonicalTable_cols_mem]
      rintro (hx | hx | hx)
      · have hx' : df.cols.contains "forma_pago_raw" = true := by simpa using hx
        rw [h] at hx'
        cases hx'
      · revert hx
        decide
      · exact absurd hx (by decide)
    have hc : ¬((dfValid df).cols.contains "forma_pago_raw" = true) := by
      rw [dfValid_cols]
      simpa using hmem
    have hrows : (dfValidP df).rows
        = (dfValid df).rows.map fun r => setCell r "payment_type" (.str "Otros") := by
      unfold dfValidP assignPaymentType
      rw [if_neg hc, setCol_rows]
    rw [hrows] at hr
    obtain ⟨r', _, rfl⟩ := List.mem_map.mp hr
    exact getCell_setCell_same ..

/-- C7 witness: the missing-column branch applied to the concrete table
`dfC7` and the concrete first row of its classified view. -/
theorem categorize_payment_rules_spec_witness :
    getCell rowC7 "payment_type" = .str "Otros" :=
  categorize_payment_rules_spec.2 dfC7 (by decide) rowC7 (by decide)

/-! ## Claim C9 -/

mutual

theorem sanitize_hasBadFloat : ∀ o : Obj, (sanitize o).hasBadFloat = false
  | .dict kvs => by simpa [sanitize, Obj.hasBadFloat] using sanitizeKVs_hasBadFloat kvs
  | .list xs => by simpa [sanitize, Obj.hasBadFloat] using sanitizeObjs_hasBadFloat xs
  | .float f => by cases f <;> simp [sanitize, Obj.hasBadFloat, PyFloat.isBad]
  | .int _ => rfl
  | .str _ => rfl
  | .pynone => rfl

theorem sanitizeObjs_hasBadFloat : ∀ xs : ObjList, (sanitizeObjs xs).hasBadFloat = false
  | .nil => rfl
  | .cons x xs => by
    simp [sanitizeObjs, ObjList.hasBadFloat, sanitize_hasBadFloat x,
      sanitizeObjs_hasBadFloat xs]

theorem sanitizeKVs_hasBadFloat : ∀ kvs : KVList, (sanitizeKVs kvs).hasBadFloat = false
  | .nil => rfl
  | .cons _ v rest => by
    simp [sanitizeKVs, KVList.hasBadFloat, sanitize_hasBadFloat v,
      sanitizeKVs_hasBadFloat rest]

end

mutual

theorem sanitize_id : ∀ o : Obj, o.hasBadFloat = false → sanitize o = o
  | .dict kvs, h => by
    have hk : kvs.hasBadFloat = false := by simpa [Obj.hasBadFloat] using h
    simp [sanitize, sanitizeKVs_id kvs hk]
  | .list xs, h => by
    have hx : xs.hasBadFloat = false := by simpa [Obj.hasBadFloat] using h
    simp [sanitize, sanitizeObjs_id xs hx]
  | .float f, h => by
    have hf : f.isBad = false := by simpa [Obj.hasBadFloat] using h
    simp [sanitize, hf]
  | .int _, _ => rfl
  | .str _, _ => rfl
  | .pynone, _ => rfl

theorem sanitizeObjs_id : ∀ xs : ObjList, xs.hasBadFloat = false → sanitizeObjs xs = xs
  | .nil, _ => rfl
  | .cons x xs, h => by
    have hx : x.hasBadFloat = false ∧ xs.hasBadFloat = false := by
      simpa [ObjList.hasBadFloat] using h
    simp [sanitizeObjs, sanitize_id x hx.1, sanitizeObjs_id xs hx.2]

theorem sanitizeKVs_id : ∀ kvs : KVList, kvs.hasBadFloat = false → sanitizeKVs kvs = kvs
  | .nil, _ => rfl
  | .cons k v rest, h => by
    have hx : v.hasBadFloat = false ∧ rest.hasBadFloat = false := by
      simpa [KVList.hasBadFloat] using h
    simp [sanitizeKVs, sanitize_id v hx.1, sanitizeKVs_id rest hx.2]

end

/-- C9: the Sanitizer replaces every NaN or infinite float with `0.0`
and leaves every other value unchanged (a value containing no bad float
is returned identically); its output never contains a non-finite float,
and since the engine's returned response passes through it, every
numeric field of `calculate_analytics` is finite. -/
theorem sanitize_spec :
    (∀ f : PyFloat, sanitize (.float f) = if f.isBad then .float (.finite 0) else .float f)
    ∧ (∀ o : Obj, (sanitize o).hasBadFloat = false)
    ∧ (∀ o : Obj, o.hasBadFloat = false → sanitize o = o)
    ∧ (∀ df : DataFrame, (calculate_analytics df).hasBadFloat = false) := by
  refine ⟨fun f => rfl, sanitize_hasBadFloat, sanitize_id, fun df => ?_⟩
  unfold calculate_analytics calculate_analytics_full
  by_cases h : df.rows.isEmpty <;>
    simp [h, sanitize_hasBadFloat, Obj.hasBadFloat, KVList.hasBadFloat]

/-- C9 witness: the identity conjunct applied to a concrete finite
value. -/
theorem sanitize_spec_witness :
    Obj.hasBadFloat (Obj.dict (KVList.ofList [("a", Obj.float (.finite 5))])) = false
    ∧ sanitize (Obj.dict (KVList.ofList [("a", Obj.float (.finite 5))]))
        = Obj.dict (KVList.ofList [("a", Obj.float (.finite 5))]) :=
  ⟨rfl, sanitize_spec.2.2.1 _ rfl⟩

/-! ## Claim C3 -/

/-- The set the aging module buckets: 2025 non-cancelled rows with
outstanding balance (line 288). -/
def pendingRows (df : DataFrame) : List Row :=
  (rows2025 df).filter fun r => decide (qCell r "pendiente" > 0)

/-- The aging reference date (line 290): the latest emission timestamp
of the whole post-dropna canonical table, cancelled rows included. -/
def refDateOf (df : DataFrame) : Option Timestamp :=
  maxTsOfRows (canonicalTable df).rows

theorem sumQ_cons (r : Row) (t : List Row) (c : String) :
    sumQ (r :: t) c = qCell r c + sumQ t c := by
  simp [sumQ]

/-- The four aging filters partition any row list: their bucket sums add
up to the whole sum, whatever the day counts are. -/
theorem four_bucket_sum (pend : List Row) (d : Row → ℤ) (c : String) :
    sumQ (pend.filter fun r => decide (d r ≤ 7)) c
      + sumQ (pend.filter fun r => decide (7 < d r) && decide (d r ≤ 30)) c
      + sumQ (pend.filter fun r => decide (30 < d r) && decide (d r ≤ 60)) c
      + sumQ (pend.filter fun r => decide (60 < d r)) c
      = sumQ pend c := by
  induction pend with
  | nil => simp [sumQ]
  | cons r t ih =>
    by_cases h1 : d r ≤ 7
    · have b1 : decide (d r ≤ 7) = true := by simpa using h1
      have b2 : (decide (7 < d r) && decide (d r ≤ 30)) = false := by
        simp only [Bool.and_eq_false_iff, decide_eq_false_iff_not]
        left
        omega
      have b3 : (decide (30 < d r) && decide (d r ≤ 60)) = false := by
        simp only [Bool.and_eq_false_iff, decide_eq_false_iff_not]
        left
        omega
      have b4 : decide (60 < d r) = false := by
        simp only [decide_eq_false_iff_not]
        omega
      simp [List.filter_cons, b1, b2, b3, b4, sumQ_cons]
      linarith [ih]
    · by_cases h2 : d r ≤ 30
      · have b1 : decide (d r ≤ 7) = false := by simpa using h1
        have b2 : (decide (7 < d r) && decide (d r ≤ 30)) = true := by
          simp only [Bool.and_eq_true, decide_eq_true_eq]
          omega
        have b3 : (decide (30 < d r) && decide (d r ≤ 60)) = false := by
          simp only [Bool.and_eq_false_iff, decide_eq_false_iff_not]
          left
          omega
        have b4 : decide (60 < d r) = false := by
          simp only [decide_eq_false_iff_not]
          omega
        simp [List.filter_cons, b1, b2, b3, b4, sumQ_cons]
        linarith [ih]
      · by_cases h3 : d r ≤ 60
        · have b1 : decide (d r ≤ 7) = false := by simpa using h1
          have b2 : (decide (7 < d r) && decide (d r ≤ 30)) = false := by
            simp only [Bool.and_eq_false_iff, decide_eq_false_iff_not]
            right
            omega
          have b3 : (decide (30 < d r) && decide (d r ≤ 60)) = true := by
            simp only [Bool.and_eq_true, decide_eq_true_eq]
            omega
          have b4 : decide (60 < d r) = false := by
            simp only [decide_eq_false_iff_not]
            omega
          simp [List.filter_cons, b1, b2, b3, b4, sumQ_cons]
          linarith [ih]
        · have b1 : decide (d r ≤ 7) = false := by simpa using h1
          have b2 : (decide (7 < d r) && decide (d r ≤ 30)) = false := by
            simp only [Bool.and_eq_false_iff, decide_eq_false_iff_not]
            right
            omega
          have b3 : (decide (30 < d r) && decide (d r ≤ 60)) = false := by
            simp only [Bool.and_eq_false_iff, decide_eq_false_iff_not]
            right
            omega
          have b4 : decide (60 < d r) = true := by
            simp only [decide_eq_true_eq]
            omega
          simp [List.filter_cons, b1, b2, b3, b4, sumQ_cons]
          linarith [ih]

theorem foldl_maxStep_bound :
    ∀ (l : List Timestamp) (acc : Option Timestamp) (t0 : Timestamp),
      l.foldl maxStep acc = some t0 →
      (∀ t ∈ l, t.absMin ≤ t0.absMin) ∧ (∀ a, acc = some a → a.absMin ≤ t0.absMin)
  | [], acc, t0, h => by
    constructor
    · intro t ht
      cases ht
    · intro a ha
      rw [List.foldl_nil] at h
      rw [ha] at h
      cases h
      exact le_refl _
  | t :: l, acc, t0, h => by
    rw [List.foldl_cons] at h
    have ih := foldl_maxStep_bound l (maxStep acc t) t0 h
    have hstep : ∀ b, maxStep acc t = some b → t.absMin ≤ b.absMin ∧ ∀ a, acc = some a → a.absMin ≤ b.absMin := by
      intro b hb
      cases acc with
      | none =>
        simp [maxStep] at hb
        subst hb
        exact ⟨le_refl _, fun a ha => by cases ha⟩
      | some a =>
        simp only [maxStep] at hb
        by_cases hlt : a.absMin < t.absMin
        · rw [if_pos hlt] at hb
          cases hb
          exact ⟨le_refl _, fun a' ha' => by cases ha'; omega⟩
        · rw [if_neg hlt] at hb
          cases hb
          exact ⟨by omega, fun a' ha' => by cases ha'; exact le_refl _⟩
    have hbsome : ∃ b, maxStep acc t = some b := by
      cases acc with
      | none => exact ⟨t, rfl⟩
      | some a =>
        simp only [maxStep]
        by_cases hlt : a.absMin < t.absMin
        · exact ⟨t, if_pos hlt⟩
        · exact ⟨a, if_neg hlt⟩
    obtain ⟨b, hb⟩ := hbsome
    obtain ⟨htb, hacc⟩ := hstep b hb
    have hble : b.absMin ≤ t0.absMin := ih.2 b hb
    refine ⟨?_, fun a ha => le_trans (hacc a ha) hble⟩
    intro u hu
    cases hu with
    | head => exact le_trans htb hble
    | tail _ hu => exact ih.1 u hu

theorem maxTsOfRows_bound (rows : List Row) (t0 : Timestamp)
    (h : maxTsOfRows rows = some t0) (r : Row) (hr : r ∈ rows) (t : Timestamp)
    (ht : getTs r = some t) : t.absMin ≤ t0.absMin := by
  have hmem : t ∈ rows.filterMap getTs := List.mem_filterMap.mpr ⟨r, hr, ht⟩
  exact (foldl_maxStep_bound _ none t0 h).1 t hmem

/-- Every row of the classified non-cancelled view reads the same
emission timestamp as some row of the canonical table. -/
theorem dfValidP_getTs (df : DataFrame) (r : Row) (hr : r ∈ (dfValidP df).rows) :
    ∃ rc ∈ (canonicalTable df).rows, getTs r = getTs rc := by
  unfold dfValidP assignPaymentType at hr
  have hget : ∀ (v : RawVal) (r' : Row),
      getTs (setCell r' "payment_type" v) = getTs r' := by
    intro v r'
    unfold getTs
    rw [getCell_setCell_ne _ _ _ _ (by decide)]
  split at hr <;>
  · rw [setCol_rows] at hr
    obtain ⟨r', hr', rfl⟩ := List.mem_map.mp hr
    have hc : r' ∈ (canonicalTable df).rows := by
      simp only [dfValid] at hr'
      exact List.mem_of_mem_filter hr'
    exact ⟨r', hc, hget _ r'⟩

theorem pendingRows_getTs (df : DataFrame) (r : Row) (hr : r ∈ pendingRows df) :
    ∃ rc ∈ (canonicalTable df).rows, getTs r = getTs rc := by
  unfold pendingRows at hr
  have h1 : r ∈ rows2025 df := List.mem_of_mem_filter hr
  unfold rows2025 at h1
  have h2 : r ∈ (dfValidP df).rows := List.mem_of_mem_filter h1
  exact dfValidP_getTs df r h2

/-- C3: over any input table, the four aging buckets partition the
outstanding 2025 set — the bucketed `pendiente` sums add up exactly to
its total outstanding amount, each pending row has a nonnegative whole
days-since value relative to the canonical reference date (so the
buckets read `[0,7]`, `(7,30]`, `(30,60]`, `(60,∞)`), every pending row
falls in exactly one bucket, and an empty pending set yields the empty
bucket list while a nonempty one yields exactly the four buckets. -/
theorem aging_buckets_partition (df : DataFrame) (ref : Timestamp)
    (href : refDateOf df = some ref) :
    ((aging_bins ref (pendingRows df)).map Prod.snd).sum = sumQ (pendingRows df) "pendiente"
    ∧ (∀ r ∈ pendingRows df, 0 ≤ daysSince ref r)
    ∧ (∀ r ∈ pendingRows df,
        (daysSince ref r ≤ 7 ∨ (7 < daysSince ref r ∧ daysSince ref r ≤ 30)
          ∨ (30 < daysSince ref r ∧ daysSince ref r ≤ 60) ∨ 60 < daysSince ref r)
        ∧ ¬(daysSince ref r ≤ 7 ∧ 7 < daysSince ref r)
        ∧ ¬(daysSince ref r ≤ 30 ∧ 30 < daysSince ref r)
        ∧ ¬(daysSince ref r ≤ 60 ∧ 60 < daysSince ref r))
    ∧ (pendingRows df = [] →
        aging_analysis (canonicalTable df).rows (rows2025 df) = Obj.list .nil)
    ∧ (pendingRows df ≠ [] →
        aging_analysis (canonicalTable df).rows (rows2025 df)
          = Obj.list (ObjList.ofList ((aging_bins ref (pendingRows df)).map fun kv =>
              Obj.dict (KVList.ofList
                [("range", Obj.str kv.1), ("amount", Obj.float (.finite kv.2))])))) := by
  refine ⟨?_, ?_, ?_, ?_, ?_⟩
  · have h := four_bucket_sum (pendingRows df) (daysSince ref) "pendiente"
    simp only [aging_bins, List.map_cons, List.map_nil, List.sum_cons, List.sum_nil]
    linarith [h]
  · intro r hr
    unfold daysSince
    cases hts : getTs r with
    | none => exact le_refl 0
    | some t =>
      obtain ⟨rc, hrc, heq⟩ := pendingRows_getTs df r hr
      rw [hts] at heq
      have hle := maxTsOfRows_bound (canonicalTable df).rows ref href rc hrc t heq.symm
      exact Int.fdiv_nonneg (by omega) (by omega)
  · intro r _
    omega
  · intro hp
    unfold aging_analysis
    by_cases h25 : rows2025 df = []
    · rw [if_neg (by simpa using h25)]
    · rw [if_pos h25]
      rw [if_neg (by simpa [pendingRows] using hp)]
  · intro hp
    have h25 : rows2025 df ≠ [] := by
      intro h
      apply hp
      simp [pendingRows, h]
    unfold aging_analysis
    rw [if_pos h25, if_pos (by simpa [pendingRows] using hp),
      show maxTsOfRows (canonicalTable df).rows = some ref from href]
    rfl

/-- A concrete table with one outstanding 2025 row, for the aging
witness. -/
def dfC3 : DataFrame :=
  { cols := ["fecha_emision", "pendiente", "estado"],
    rows := [[("fecha_emision", .str "2025-06-30T10:00"), ("pendiente", .num 50),
              ("estado", .str "PENDIENTE")]] }

/-- The reference date of `dfC3`: its single emission timestamp. -/
def refC3 : Timestamp := mkTimestamp 2025 6 30 10 0

/-- C3 witness: the partition theorem applied to the concrete table
`dfC3`, its reference date discharged by evaluation, and the
nonnegativity conjunct instantiated at its concrete pending row. -/
theorem aging_buckets_partition_witness :
    ((aging_bins refC3 (pendingRows dfC3)).map Prod.snd).sum = sumQ (pendingRows dfC3) "pendiente"
    ∧ 0 ≤ daysSince refC3 ((pendingRows dfC3).headD []) :=
  ⟨(aging_buckets_partition dfC3 refC3 (by decide)).1,
   (aging_buckets_partition dfC3 refC3 (by decide)).2.1 _ (by decide)⟩

/-! ## Claim C8 -/

/-- C8: each weekday group present in the day-of-week analysis has a
positive count of distinct observed calendar dates, and its reported
`avg_daily_sales` is the group's summed facturado divided by that
distinct-date count — not by the transaction count; a weekday with no
observed dates would report the literal `0`. -/
theorem dow_avg_daily_sales_spec (df : DataFrame) (w : ℤ)
    (hw : w ∈ groupKeys dowKey (dfValid df).rows) :
    0 < distinctDateCount (groupRows dowKey w (dfValid df).rows)
    ∧ dowEntry (dfValid df).rows w
        = Obj.dict (KVList.ofList
            [("day", Obj.str (dow_map_get w)),
             ("facturado", Obj.float (.finite (sumQ (groupRows dowKey w (dfValid df).rows) "facturado"))),
             ("tx_count", Obj.int (groupRows dowKey w (dfValid df).rows).length),
             ("avg_daily_sales", Obj.float (.finite
               (sumQ (groupRows dowKey w (dfValid df).rows) "facturado"
                 / (distinctDateCount (groupRows dowKey w (dfValid df).rows) : ℚ))))])
    ∧ (∀ (rows : List Row) (v : ℤ), distinctDateCount (groupRows dowKey v rows) = 0 →
        dowEntry rows v = Obj.dict (KVList.ofList
          [("day", Obj.str (dow_map_get v)),
           ("facturado", Obj.float (.finite (sumQ (groupRows dowKey v rows) "facturado"))),
           ("tx_count", Obj.int (groupRows dowKey v rows).length),
           ("avg_daily_sales", Obj.int 0)])) := by
  have hpos : 0 < distinctDateCount (groupRows dowKey w (dfValid df).rows) := by
    unfold groupKeys at hw
    have hw' := List.mem_dedup.mp hw
    obtain ⟨r, hr, hkey⟩ := List.mem_filterMap.mp hw'
    have hgrp : r ∈ groupRows dowKey w (dfValid df).rows := by
      unfold groupRows
      exact List.mem_filter.mpr ⟨hr, by simpa using hkey⟩
    obtain ⟨t, ht, rfl⟩ : ∃ t, getTs r = some t ∧ t.dowIdx = w := by
      unfold dowKey at hkey
      cases hts : getTs r with
      | none => rw [hts] at hkey; cases hkey
      | some t =>
        rw [hts] at hkey
        exact ⟨t, rfl, by simpa using hkey⟩
    have hmem : t ∈ (groupRows dowKey t.dowIdx (dfValid df).rows).filterMap getTs :=
      List.mem_filterMap.mpr ⟨r, hgrp, ht⟩
    unfold distinctDateCount
    have hne : ((groupRows dowKey t.dowIdx (dfValid df).rows).filterMap getTs).map
        (fun u => (u.year, u.month, u.day)) ≠ [] := by
      intro hnil
      rw [List.map_eq_nil_iff] at hnil
      rw [hnil] at hmem
      cases hmem
    have hne2 : (((groupRows dowKey t.dowIdx (dfValid df).rows).filterMap getTs).map
        (fun u => (u.year, u.month, u.day))).dedup ≠ [] := by
      intro hnil
      rw [List.dedup_eq_nil] at hnil
      exact hne hnil
    exact_mod_cast List.length_pos.mpr hne2
  refine ⟨hpos, ?_, ?_⟩
  · unfold dowEntry
    rw [if_pos hpos]
  · intro rows v h0
    unfold dowEntry
    rw [h0]
    rw [if_neg (by omega)]

/-- A one-row table whose single transaction falls on a Monday, for the
day-of-week witness. -/
def dfC8 : DataFrame :=
  { cols := ["fecha_emision", "facturado"],
    rows := [[("fecha_emision", .str "2025-06-30"), ("facturado", .num 120)]] }

/-- C8 witness: the theorem applied to `dfC8` and its Monday group. -/
theorem dow_avg_daily_sales_spec_witness :
    0 < distinctDateCount (groupRows dowKey 0 (dfValid dfC8).rows) :=
  (dow_avg_daily_sales_spec dfC8 0 (by decide)).1

/-! ## Claim C6 -/

/-- The pointwise action of one monetary-column cleaning pass on a row
(the column-present branch of lines 33-35). -/
def cleanCellFn (c : String) (r : Row) : Row :=
  setCell r c (.num (clean_currency (getCell r c)))

/-- The pointwise action of line 40 on a row. -/
def dateCellFn (r : Row) : Row :=
  setCell r "fecha_emision" (match to_datetime_val (getCell r "fecha_emision") with
    | some t => .ts t
    | none => .pynan)

/-- The pointwise action of line 41 on a row. -/
def yearCellFn (r : Row) : Row :=
  setCell r "year" (match getTs r with | some t => .num t.year | none => .pynan)

/-- The pointwise action of line 42 on a row. -/
def monthCellFn (r : Row) : Row :=
  setCell r "month" (match getTs r with | some t => .num t.month | none => .pynan)

/-- The pointwise action of line 43 on a row. -/
def dayNameCellFn (r : Row) : Row :=
  setCell r "day_name" (match getTs r with | some t => .str (dayNameEN t.dowIdx) | none => .pynan)

/-- The pointwise action of line 44 on a row. -/
def hourCellFn (r : Row) : Row :=
  setCell r "hour" (match getTs r with | some t => .num t.hour | none => .pynan)

/-- The monetary part of the per-row preprocessing when all four
columns are present. -/
def moneyRowFn (r : Row) : Row :=
  cleanCellFn "descuento" (cleanCellFn "pendiente" (cleanCellFn "pagado" (cleanCellFn "facturado" r)))

/-- The whole per-row preprocessing of lines 33-44 when all four
monetary columns are present. -/
def prepRowFn (r : Row) : Row :=
  hourCellFn (dayNameCellFn (monthCellFn (yearCellFn (dateCellFn (moneyRowFn r)))))

theorem cleanColStep_rows_of_contains (d : DataFrame) (c : String)
    (h : d.cols.contains c = true) :
    (cleanColStep d c).rows = d.rows.map (cleanCellFn c) := by
  unfold cleanColStep
  rw [if_pos h, setCol_rows]
  rfl

theorem cleanColStep_contains (d : DataFrame) (c c2 : String)
    (h : d.cols.contains c2 = true) :
    (cleanColStep d c).cols.contains c2 = true := by
  have hm : c2 ∈ d.cols := by simpa using h
  have : c2 ∈ (cleanColStep d c).cols := (cleanColStep_cols_mem d c c2).mpr (Or.inl hm)
  simpa using this

theorem dateStep_rows (d : DataFrame) :
    (dateStep d).rows
      = d.rows.map fun r => hourCellFn (dayNameCellFn (monthCellFn (yearCellFn (dateCellFn r)))) := by
  simp only [dateStep, setCol_rows, List.map_map]
  rfl

theorem preprocessMut_rows_of_canonical_cols (df : DataFrame)
    (h1 : df.cols.contains "facturado" = true)
    (h2 : df.cols.contains "pagado" = true)
    (h3 : df.cols.contains "pendiente" = true)
    (h4 : df.cols.contains "descuento" = true) :
    (preprocessMut df).rows = df.rows.map prepRowFn := by
  have k2 := cleanColStep_contains df "facturado" "pagado" h2
  have k3 := cleanColStep_contains _ "pagado" "pendiente"
    (cleanColStep_contains df "facturado" "pendiente" h3)
  have k4 := cleanColStep_contains _ "pendiente" "descuento"
    (cleanColStep_contains _ "pagado" "descuento"
      (cleanColStep_contains df "facturado" "descuento" h4))
  unfold preprocessMut
  rw [dateStep_rows, cleanNumericStep_eq,
    cleanColStep_rows_of_contains _ _ k4, cleanColStep_rows_of_contains _ _ k3,
    cleanColStep_rows_of_contains _ _ k2, cleanColStep_rows_of_contains _ _ h1,
    List.map_map, List.map_map, List.map_map, List.map_map]
  rfl

theorem prepRowFn_preserves (r : Row)
    (hfa : ∃ q : ℚ, getCell r "facturado" = .num q)
    (hpa : ∃ q : ℚ, getCell r "pagado" = .num q)
    (hpe : ∃ q : ℚ, getCell r "pendiente" = .num q)
    (hde : ∃ q : ℚ, getCell r "descuento" = .num q)
    (hts : ∃ t : Timestamp, getCell r "fecha_emision" = .ts t)
    (c : String) (hc : c ∈ numeric_cols ∨ c = "fecha_emision") :
    getCell (prepRowFn r) c = getCell r c := by
  have m1 : ∀ x, getCell (cleanCellFn "facturado" r) x = getCell r x := by
    intro x
    by_cases hx : x = "facturado"
    · subst hx
      obtain ⟨q, hq⟩ := hfa
      show getCell (setCell r "facturado" (.num (clean_currency (getCell r "facturado"))))
        "facturado" = getCell r "facturado"
      rw [getCell_setCell_same, hq]
      rfl
    · exact getCell_setCell_ne _ _ _ _ hx
  have m2 : ∀ x, getCell (cleanCellFn "pagado" (cleanCellFn "facturado" r)) x
      = getCell (cleanCellFn "facturado" r) x := by
    intro x
    by_cases hx : x = "pagado"
    · subst hx
      obtain ⟨q, hq⟩ := hpa
      have hq' : getCell (cleanCellFn "facturado" r) "pagado" = .num q := (m1 _).trans hq
      show getCell (setCell (cleanCellFn "facturado" r) "pagado"
          (.num (clean_currency (getCell (cleanCellFn "facturado" r) "pagado")))) "pagado"
        = getCell (cleanCellFn "facturado" r) "pagado"
      rw [getCell_setCell_same, hq']
      rfl
    · exact getCell_setCell_ne _ _ _ _ hx
  have m3 : ∀ x, getCell (cleanCellFn "pendiente" (cleanCellFn "pagado" (cleanCellFn "facturado" r))) x
      = getCell (cleanCellFn "pagado" (cleanCellFn "facturado" r)) x := by
    intro x
    by_cases hx : x = "pendiente"
    · subst hx
      obtain ⟨q, hq⟩ := hpe
      have hq' : getCell (cleanCellFn "pagado" (cleanCellFn "facturado" r)) "pendiente" = .num q :=
        (m2 _).trans ((m1 _).trans hq)
      show getCell (setCell (cleanCellFn "pagado" (cleanCellFn "facturado" r)) "pendiente"
          (.num (clean_currency
            (getCell (cleanCellFn "pagado" (cleanCellFn "facturado" r)) "pendiente")))) "pendiente"
        = getCell (cleanCellFn "pagado" (cleanCellFn "facturado" r)) "pendiente"
      rw [getCell_setCell_same, hq']
      rfl
    · exact getCell_setCell_ne _ _ _ _ hx
  have m4 : ∀ x, getCell (moneyRowFn r) x
      = getCell (cleanCellFn "pendiente" (cleanCellFn "pagado" (cleanCellFn "facturado" r))) x := by
    intro x
    by_cases hx : x = "descuento"
    · subst hx
      obtain ⟨q, hq⟩ := hde
      have hq' : getCell (cleanCellFn "pendiente" (cleanCellFn "pagado" (cleanCellFn "facturado" r)))
          "descuento" = .num q := (m3 _).trans ((m2 _).trans ((m1 _).trans hq))
      show getCell (setCell (cleanCellFn "pendiente" (cleanCellFn "pagado" (cleanCellFn "facturado" r)))
          "descuento" (.num (clean_currency
            (getCell (cleanCellFn "pendiente" (cleanCellFn "pagado" (cleanCellFn "facturado" r)))
              "descuento")))) "descuento"
        = getCell (cleanCellFn "pendiente" (cleanCellFn "pagado" (cleanCellFn "facturado" r))) "descuento"
      rw [getCell_setCell_same, hq']
      rfl
    · exact getCell_setCell_ne _ _ _ _ hx
  have mAll : ∀ x, getCell (moneyRowFn r) x = getCell r x :=
    fun x => (m4 x).trans ((m3 x).trans ((m2 x).trans (m1 x)))
  have d0 : ∀ x, getCell (dateCellFn (moneyRowFn r)) x = getCell (moneyRowFn r) x := by
    intro x
    by_cases hx : x = "fecha_emision"
    · subst hx
      obtain ⟨t, ht⟩ := hts
      have ht' : getCell (moneyRowFn r) "fecha_emision" = .ts t := (mAll _).trans ht
      show getCell (setCell (moneyRowFn r) "fecha_emision"
          (match to_datetime_val (getCell (moneyRowFn r) "fecha_emision") with
            | some t => .ts t
            | none => .pynan)) "fecha_emision"
        = getCell (moneyRowFn r) "fecha_emision"
      rw [getCell_setCell_same, ht']
      rfl
    · exact getCell_setCell_ne _ _ _ _ hx
  have hne : c ≠ "year" ∧ c ≠ "month" ∧ c ≠ "day_name" ∧ c ≠ "hour" := by
    rcases hc with hc | rfl
    · simp only [numeric_cols, List.mem_cons, List.not_mem_nil, or_false] at hc
      rcases hc with rfl | rfl | rfl | rfl <;>
        exact ⟨by decide, by decide, by decide, by decide⟩
    · exact ⟨by decide, by decide, by decide, by decide⟩
  obtain ⟨hy, hm, hd, hh⟩ := hne
  unfold prepRowFn hourCellFn dayNameCellFn monthCellFn yearCellFn
  rw [getCell_setCell_ne _ _ _ _ hh, getCell_setCell_ne _ _ _ _ hd,
    getCell_setCell_ne _ _ _ _ hm, getCell_setCell_ne _ _ _ _ hy, d0 c, mAll c]

/-- C6: preprocessing is idempotent on monetary and date values: on a
table already in canonical form — the four monetary columns present
with numeric cells and `fecha_emision` cells already parsed timestamps —
the preprocessing of lines 33-44 changes no facturado, pagado,
pendiente, descuento or fecha_emision value. -/
theorem preprocess_idempotent (df : DataFrame)
    (hcols : ∀ c ∈ numeric_cols, df.cols.contains c = true)
    (hnum : ∀ r ∈ df.rows, ∀ c ∈ numeric_cols, ∃ q : ℚ, getCell r c = .num q)
    (hts : ∀ r ∈ df.rows, ∃ t : Timestamp, getCell r "fecha_emision" = .ts t) :
    ∀ (i : ℕ) (c : String), c ∈ numeric_cols ∨ c = "fecha_emision" →
      ((preprocessMut df).rows[i]?).map (fun r => getCell r c)
        = (df.rows[i]?).map fun r => getCell r c := by
  intro i c hc
  rw [preprocessMut_rows_of_canonical_cols df (hcols _ (by decide)) (hcols _ (by decide))
    (hcols _ (by decide)) (hcols _ (by decide))]
  rw [List.getElem?_map]
  cases hi : df.rows[i]? with
  | none => rfl
  | some r =>
    have hr : r ∈ df.rows := List.getElem?_mem hi
    show some (getCell (prepRowFn r) c) = some (getCell r c)
    exact congrArg some (prepRowFn_preserves r
      (hnum r hr _ (by decide)) (hnum r hr _ (by decide)) (hnum r hr _ (by decide))
      (hnum r hr _ (by decide)) (hts r hr) c hc)

/-- A concrete already-canonical one-row table for the idempotence
witness. -/
def dfC6 : DataFrame :=
  { cols := ["fecha_emision", "facturado", "pagado", "pendiente", "descuento"],
    rows := [[("fecha_emision", .ts (mkTimestamp 2025 2 3 9 30)), ("facturado", .num 1000),
              ("pagado", .num 800), ("pendiente", .num 200), ("descuento", .num 0)]] }

/-- C6 witness: the idempotence theorem applied to `dfC6` and its
facturado cell, every hypothesis discharged by evaluation. -/
theorem preprocess_idempotent_witness :
    ((preprocessMut dfC6).rows[0]?).map (fun r => getCell r "facturado")
      = (dfC6.rows[0]?).map fun r => getCell r "facturado" :=
  preprocess_idempotent dfC6 (by decide)
    (by
      intro r hr c hc
      simp only [dfC6, List.mem_singleton] at hr
      subst hr
      simp only [numeric_cols, List.mem_cons, List.not_mem_nil, or_false] at hc
      rcases hc with rfl | rfl | rfl | rfl
      · exact ⟨_, rfl⟩
      · exact ⟨_, rfl⟩
      · exact ⟨_, rfl⟩
      · exact ⟨_, rfl⟩)
    (by
      intro r hr
      simp only [dfC6, List.mem_singleton] at hr
      subst hr
      exact ⟨_, rfl⟩)
    0 "facturado" (by decide)

end VetAnalytics
